import Mathlib

/-!
Shallow embedding of the Layer-3 ZTP link-IP allocator (ipcalc.py, module
pn_ztp_l3_links) together with theorems checking the specification claims.

Machine addresses are modelled as natural numbers below 2 to the power 32.
Fallible Python operations return Except values tagged with the Python
exception class they raise.  External collaborators (remote command
execution, the IPv6 window generator from the star-imported pn_netvisor
namespace, the interface configurator) are modelled as an explicit
environment record, and every side effect is recorded as an event in an
ordered trace.
-/

set_option autoImplicit false

deriving instance DecidableEq for Except

namespace IpCalc

/-- Kinds of Python exceptions the embedded code can raise.  The
constructor invalidOffset never arises from the source; it is the error
class the specification names for negative sequencer indices and is
included so that statements about it can be written down. -/
inductive PyError where
  | valueError
  | unboundLocal
  | nameError
  | stopIteration
  | indexError
  | invalidOffset
  deriving DecidableEq, Repr

/-- An IPv4 network: base address in integer form plus a prefix length,
as held by ipaddress.IPv4Network after strict construction. -/
structure Net where
  networkAddress : Nat
  prefixLen : Nat
  deriving DecidableEq, Repr

/-- The broadcast address of a network: the base with all host bits set. -/
def Net.broadcastAddress (n : Net) : Nat :=
  n.networkAddress + 2 ^ (32 - n.prefixLen) - 1

/-- BetterIPv4Network.size from the source: broadcast + 1 - network. -/
def Net.size (n : Net) : Nat :=
  n.broadcastAddress + 1 - n.networkAddress

/-- Strict construction, ipaddress.ip_network / IPv4Network with
strict=True (the default used throughout the source): the prefix must fit,
the address must fit in 32 bits and must have no host bits set, otherwise
ValueError (AddressValueError and NetmaskValueError are subclasses of
ValueError). -/
def ip_network_strict (addr prefixLen : Nat) : Except PyError Net :=
  if prefixLen ≤ 32 ∧ addr < 2 ^ 32 ∧ addr % 2 ^ (32 - prefixLen) = 0 then
    Except.ok ⟨addr, prefixLen⟩
  else
    Except.error PyError.valueError

/-- BetterIPv4Network.__add__ from the source: add a numeric offset to the
base address and rebuild a network with the same netmask through the
(address, netmask) tuple constructor, which is again strict. -/
def betterAdd (n : Net) (offset : Nat) : Except PyError Net :=
  ip_network_strict (n.networkAddress + offset) n.prefixLen

/-- Usable host addresses of a network, modelling the hosts() method of
the Python ipaddress library as documented: a /32 yields the single
address, a /31 yields both the network and the broadcast address in that
order, and wider networks yield every interior address, excluding network
and broadcast. -/
def Net.hosts (n : Net) : List Nat :=
  if 32 ≤ n.prefixLen then [n.networkAddress]
  else if n.prefixLen = 31 then [n.networkAddress, n.networkAddress + 1]
  else (List.range (n.size - 2)).map (fun i => n.networkAddress + 1 + i)

/-- Python list indexing: out-of-range access raises IndexError. -/
def pyGet (l : List Nat) (i : Nat) : Except PyError Nat :=
  match l.get? i with
  | some v => Except.ok v
  | none => Except.error PyError.indexError

/-- The function finding_initial_ip from the source.  For count zero it
parses the base network strictly and returns its host list.  Otherwise it
parses the base strictly, then advances a generator of successive
networks count times; the loop body never runs for negative count, so the
local variable ips is unbound at the return and an UnboundLocalError is
raised.  For positive count the last generated network sits count strides
past the base, and its host list is returned. -/
def finding_initial_ip (start_ip subnet_ipv4 : Nat) (count : Int) :
    Except PyError (List Nat) :=
  if count = 0 then
    (ip_network_strict start_ip subnet_ipv4).map Net.hosts
  else
    match ip_network_strict start_ip subnet_ipv4 with
    | Except.error e => Except.error e
    | Except.ok network =>
      if count < 0 then
        Except.error PyError.unboundLocal
      else
        (betterAdd network (count.toNat * network.size)).map Net.hosts

/-- The n-th subnet of the stream the source draws from: the base network
itself for n zero (the count-zero path of finding_initial_ip), and the
base advanced by n whole strides otherwise. -/
def subnet_at (network : Net) (n : Nat) : Except PyError Net :=
  if n = 0 then ip_network_strict network.networkAddress network.prefixLen
  else betterAdd network (n * network.size)

/-- Membership of an address in the block covered by a network. -/
def inRange (n : Net) (x : Nat) : Prop :=
  n.networkAddress ≤ x ∧ x ≤ n.broadcastAddress

instance (n : Net) (x : Nat) : Decidable (inRange n x) := by
  unfold inRange; infer_instance

/-- The module default pn_net_address_ipv4, 172.168.1.1, in integer form. -/
def defaultStartIp : Nat := 172 * 2 ^ 24 + 168 * 2 ^ 16 + 1 * 2 ^ 8 + 1

/-- The canonical /31 base one below the module default: 172.168.1.0. -/
def alignedBase : Nat := 172 * 2 ^ 24 + 168 * 2 ^ 16 + 1 * 2 ^ 8

/-- The pn_addr_type module parameter. -/
inductive AddrType where
  | ipv4
  | ipv6
  | ipv4_ipv6
  deriving DecidableEq, Repr

/-- Whether the address family selector includes IPv4, matching the test
addr_type == ipv4 or addr_type == ipv4_ipv6 in the source. -/
def AddrType.hasV4 : AddrType → Bool
  | AddrType.ipv4 => true
  | AddrType.ipv6 => false
  | AddrType.ipv4_ipv6 => true

/-- Whether the address family selector includes IPv6, matching the test
addr_type == ipv6 or addr_type == ipv4_ipv6 in the source. -/
def AddrType.hasV6 : AddrType → Bool
  | AddrType.ipv4 => false
  | AddrType.ipv6 => true
  | AddrType.ipv4_ipv6 => true

/-- One externally visible side effect of the planner, in program order:
toggling auto-trunk on a switch, deleting a trunk, or configuring a
vrouter interface with an optional IPv4 and optional IPv6 address (none
models the empty string the source passes when a family is absent). -/
inductive Event where
  | autoTrunk (switch : String) (enable : Bool)
  | deleteTrunk (switch : String) (port : String) (peer : String)
  | createInterface (switch : String) (ip_ipv4 : Option Nat)
      (ip_ipv6 : Option Nat) (port : String)
  deriving DecidableEq, Repr

/-- The fields of an exit_json call that the claims talk about. -/
structure ExitJson where
  unreachable : Bool
  failed : Bool
  exception : String
  summaryOutput : String
  msg : String
  changed : Bool
  deriving DecidableEq, Repr

/-- The structured failure result built at the ipv6-exhaustion hard stop
in auto_configure_link_ips. -/
def ipv6ExhaustedExit : ExitJson :=
  { unreachable := false
    failed := true
    exception := "Error: " ++ "ipv6 range exhausted"
    summaryOutput := "Error: " ++ "ipv6 range exhausted"
    msg := "L3 ZTP failed"
    changed := false }

/-- Module parameters consumed by auto_configure_link_ips. -/
structure Params where
  spine_list : List String
  leaf_list : List String
  addr_type : AddrType
  start_ip : Nat
  subnet_ipv4 : Nat
  subnet_ipv6 : Nat
  current_switch : String

/-- Modelled from the spec: the external collaborators of section 6 and
the star-imported pn_netvisor namespace, which are not under src.
count_output is the name the skip loop reads from that namespace; per the
spec it is undefined, which the value none models.  ipv6Window is the
finite sequence of slots the generator calculate_link_ip_addresses_ipv6
yields before raising StopIteration.  leafPorts is the deduplicated
result of the port-show hostname query for a spine, remotePort the
deduplicated rport lookup for a leaf port, and ifaceChanged tells whether
create_interface reports a state change for a switch and port. -/
structure Env where
  count_output : Option Nat
  ipv6Window : List (List Nat)
  leafPorts : String → List String
  remotePort : String → String
  ifaceChanged : String → String → Bool

/-- Running state of the per-link loop: the subnet-stream offset, the
remaining IPv6 slots, and the accumulated event trace and changed flags. -/
structure PlanState where
  count : Nat
  window : List (List Nat)
  events : List Event
  changedFlags : List Bool
  deriving Repr

/-- Outcome of one stage of the planner: continue with a new state, stop
the whole run through exit_json, or raise a Python exception.  The event
list carries the side effects already performed. -/
inductive Step where
  | cont (st : PlanState)
  | exited (e : ExitJson) (events : List Event)
  | err (e : PyError) (events : List Event)

/-- The events a stage outcome has accumulated so far. -/
def stepEvents : Step → List Event
  | Step.cont st => st.events
  | Step.exited _ evts => evts
  | Step.err _ evts => evts

/-- The leaf-side ip_list index used before the first create_interface:
slot position 0 for a /127 window, otherwise 1. -/
def firstV6 (p : Params) (oslot : Option (List Nat)) :
    Except PyError (Option Nat) :=
  match oslot with
  | none => Except.ok none
  | some slot => (pyGet slot (if p.subnet_ipv6 = 127 then 0 else 1)).map some

/-- The ip_list index used before the second create_interface: slot
position 1 for a /127 window, otherwise 2. -/
def secondV6 (p : Params) (oslot : Option (List Nat)) :
    Except PyError (Option Nat) :=
  match oslot with
  | none => Except.ok none
  | some slot => (pyGet slot (if p.subnet_ipv6 = 127 then 1 else 2)).map some

/-- The IPv4 address for the first create_interface of a link: ips[0]
when the family includes IPv4, otherwise the empty string. -/
def firstV4 (p : Params) (ips : List Nat) : Except PyError (Option Nat) :=
  if p.addr_type.hasV4 then (pyGet ips 0).map some else Except.ok none

/-- The IPv4 address for the second create_interface of a link: ips[1]
when the family includes IPv4, otherwise the empty string. -/
def secondV4 (p : Params) (ips : List Nat) : Except PyError (Option Nat) :=
  if p.addr_type.hasV4 then (pyGet ips 1).map some else Except.ok none

/-- The body of one iteration of the while loop over leaf ports, after
the IPv6 slot (if any) has been pulled: look up the remote port, delete
the trunk on the spine side and configure the spine interface with the
first addresses, then delete the trunk on the leaf side and configure the
leaf interface with the second addresses, advancing count by one. -/
def linkAssign (p : Params) (env : Env) (spine : String) (ips : List Nat)
    (lport : String) (st : PlanState) (oslot : Option (List Nat))
    (wrest : List (List Nat)) : Step :=
  match firstV6 p oslot with
  | Except.error e => Step.err e st.events
  | Except.ok v6a =>
    let rp := env.remotePort lport
    match firstV4 p ips with
    | Except.error e => Step.err e st.events
    | Except.ok v4a =>
      let ev1 := st.events ++
        [Event.deleteTrunk spine rp p.current_switch,
         Event.createInterface spine v4a v6a rp]
      let fl1 := st.changedFlags ++ [env.ifaceChanged spine rp]
      match secondV6 p oslot with
      | Except.error e => Step.err e ev1
      | Except.ok v6b =>
        match secondV4 p ips with
        | Except.error e => Step.err e ev1
        | Except.ok v4b =>
          Step.cont
            { count := st.count + 1
              window := wrest
              events := ev1 ++
                [Event.deleteTrunk p.current_switch lport spine,
                 Event.createInterface p.current_switch v4b v6b lport]
              changedFlags := fl1 ++
                [env.ifaceChanged p.current_switch lport] }

/-- One iteration of the while loop over leaf ports: when the family
includes IPv6, pull the next slot from the window first, and exit the
whole run with the exhaustion failure when the window is empty. -/
def processLink (p : Params) (env : Env) (spine : String) (ips : List Nat)
    (lport : String) (st : PlanState) : Step :=
  if p.addr_type.hasV6 then
    match st.window with
    | [] => Step.exited ipv6ExhaustedExit st.events
    | slot :: wrest => linkAssign p env spine ips lport st (some slot) wrest
  else
    linkAssign p env spine ips lport st none st.window

/-- The while loop over the leaf ports attached to one spine.  The source
removes the first list element after handling it, so the loop walks the
deduplicated port list front to back. -/
def processPorts (p : Params) (env : Env) (spine : String) (ips : List Nat) :
    List String → PlanState → Step
  | [], st => Step.cont st
  | lport :: rest, st =>
    match processLink p env spine ips lport st with
    | Step.cont st2 => processPorts p env spine ips rest st2
    | Step.exited e evts => Step.exited e evts
    | Step.err e evts => Step.err e evts

/-- The for loop over the spine list.  Each spine entry first calls
finding_initial_ip at the current count; the local variable subnet_ipv4
is only bound when the family includes IPv4, so a pure IPv6 run raises
UnboundLocalError here.  A port query answering Success makes the loop
continue with the next spine. -/
def processSpines (p : Params) (env : Env) :
    List String → PlanState → Step
  | [], st => Step.cont st
  | spine :: rest, st =>
    let ipsE : Except PyError (List Nat) :=
      if p.addr_type.hasV4 then
        finding_initial_ip p.start_ip p.subnet_ipv4 (st.count : Int)
      else
        Except.error PyError.unboundLocal
    match ipsE with
    | Except.error e => Step.err e st.events
    | Except.ok ips =>
      let ports := env.leafPorts spine
      if ports.contains "Success" then processSpines p env rest st
      else
        match processPorts p env spine ips ports st with
        | Step.cont st2 => processSpines p env rest st2
        | Step.exited e evts => Step.exited e evts
        | Step.err e evts => Step.err e evts

/-- Python list.index composed with the leaf-list membership gate: the
position of the current switch in the leaf list. -/
def list_index (a : String) (l : List String) : Nat :=
  l.findIdx (fun b => b = a)

/-- The starting offset into the subnet stream computed at the top of the
spine loop: index of the current leaf in the leaf list times the number
of spines. -/
def initial_count (p : Params) : Nat :=
  list_index p.current_switch p.leaf_list * p.spine_list.length

/-- The auto-trunk disable events issued before any allocation. -/
def disableEvents (p : Params) : List Event :=
  Event.autoTrunk p.current_switch false ::
    p.spine_list.map (fun s => Event.autoTrunk s false)

/-- The auto-trunk re-enable events issued by the teardown step. -/
def enableEvents (p : Params) : List Event :=
  Event.autoTrunk p.current_switch true ::
    p.spine_list.map (fun s => Event.autoTrunk s true)

/-- The IPv6 window setup performed before the spine loop when the
family includes IPv6: build the window and skip count_output slots.  An
undefined count_output raises NameError; a skip past the end of the
window lets StopIteration escape the uncaught for loop. -/
def setupWindow (p : Params) (env : Env) : Except PyError (List (List Nat)) :=
  if p.addr_type.hasV6 then
    match env.count_output with
    | none => Except.error PyError.nameError
    | some k =>
      if k ≤ env.ipv6Window.length then Except.ok (env.ipv6Window.drop k)
      else Except.error PyError.stopIteration
  else
    Except.ok env.ipv6Window

/-- Result of one invocation of auto_configure_link_ips: a normal return
with the trace and the accumulated changed flags, a structured exit_json
stop, or an uncaught Python exception. -/
inductive RunResult where
  | ok (events : List Event) (changedFlags : List Bool)
  | exited (e : ExitJson) (events : List Event)
  | err (e : PyError) (events : List Event)
  deriving DecidableEq, Repr

/-- The event trace a run has produced, whatever its outcome. -/
def eventsOf : RunResult → List Event
  | RunResult.ok evts _ => evts
  | RunResult.exited _ evts => evts
  | RunResult.err _ evts => evts

/-- The function auto_configure_link_ips from the source.  If the current
switch is not a leaf, nothing happens.  Otherwise auto-trunk is disabled
on the current leaf and all spines; when the family includes IPv6 the
window is built and the skip loop reads count_output from the
star-imported namespace (NameError when it is undefined, StopIteration
when the skip overruns the window); then the spine loop runs from the
initial count, and on normal completion auto-trunk is re-enabled on the
current leaf and all spines. -/
def auto_configure_link_ips (p : Params) (env : Env) : RunResult :=
  if p.leaf_list.contains p.current_switch then
    match setupWindow p env with
    | Except.error e => RunResult.err e (disableEvents p)
    | Except.ok window =>
      match processSpines p env p.spine_list
          { count := initial_count p, window := window,
            events := disableEvents p, changedFlags := [] } with
      | Step.cont st => RunResult.ok (st.events ++ enableEvents p) st.changedFlags
      | Step.exited e evts => RunResult.exited e evts
      | Step.err e evts => RunResult.err e evts
  else
    RunResult.ok [] []

/-- The module exit of main: a normal planner return is reported with
failed false and changed true exactly when some create_interface reported
a change; the exhaustion exit_json passes through; an uncaught exception
propagates. -/
def run_module (p : Params) (env : Env) :
    Except (PyError × List Event) (ExitJson × List Event) :=
  match auto_configure_link_ips p env with
  | RunResult.ok evts flags =>
    Except.ok
      ({ unreachable := false
         failed := false
         exception := ""
         summaryOutput := ""
         msg := "L3 ZTP configuration succeeded"
         changed := flags.contains true }, evts)
  | RunResult.exited e evts => Except.ok (e, evts)
  | RunResult.err e evts => Except.error (e, evts)

/-- The IPv4 addresses handed to create_interface for a given switch, in
trace order. -/
def ifaceIPv4s (evts : List Event) (sw : String) : List (Option Nat) :=
  evts.filterMap (fun e =>
    match e with
    | Event.createInterface s v4 _ _ => if s = sw then some v4 else none
    | _ => none)

/-- Every IPv4 address handed to any create_interface call, in trace
order. -/
def assigned_ipv4s (evts : List Event) : List Nat :=
  evts.filterMap (fun e =>
    match e with
    | Event.createInterface _ (some v4) _ _ => some v4
    | _ => none)

/-- Scenario for claim C1: one leaf, one spine, two ports between them,
IPv4 only, canonical /31 base. -/
def paramsC1 : Params :=
  { spine_list := ["s1"], leaf_list := ["l1"], addr_type := AddrType.ipv4,
    start_ip := alignedBase, subnet_ipv4 := 31, subnet_ipv6 := 0,
    current_switch := "l1" }

/-- Environment for claim C1: the query for spine s1 discovers the two
leaf ports p1 and p2, whose remote ports are r1 and r2. -/
def envC1 : Env :=
  { count_output := none, ipv6Window := [],
    leafPorts := fun s => if s = "s1" then ["p1", "p2"] else [],
    remotePort := fun lp => if lp = "p1" then "r1" else "r2",
    ifaceChanged := fun _ _ => true }

/-- Scenario for claim C2: the end-to-end case from the spec, with the
module default base 172.168.1.1, prefix 31, spine list [spine1], leaf
list [leaf1], current switch leaf1. -/
def paramsC2 : Params :=
  { spine_list := ["spine1"], leaf_list := ["leaf1"],
    addr_type := AddrType.ipv4, start_ip := defaultStartIp,
    subnet_ipv4 := 31, subnet_ipv6 := 0, current_switch := "leaf1" }

/-- The same scenario with the canonical base 172.168.1.0 instead. -/
def paramsC2aligned : Params :=
  { paramsC2 with start_ip := alignedBase }

/-- Environment for claim C2: one discovered port pair, leaf port 1 and
spine port 5, and an interface configurator that reports a change. -/
def envC2 : Env :=
  { count_output := none, ipv6Window := [],
    leafPorts := fun s => if s = "spine1" then ["1"] else [],
    remotePort := fun _ => "5",
    ifaceChanged := fun _ _ => true }

/-- Scenario for claim C5, first leaf: leaf list [L1, L2], spine list
[S1, S2], IPv4 only, canonical /31 base, current switch L1. -/
def paramsC5L1 : Params :=
  { spine_list := ["S1", "S2"], leaf_list := ["L1", "L2"],
    addr_type := AddrType.ipv4, start_ip := alignedBase,
    subnet_ipv4 := 31, subnet_ipv6 := 0, current_switch := "L1" }

/-- Scenario for claim C5, second leaf. -/
def paramsC5L2 : Params :=
  { paramsC5L1 with current_switch := "L2" }

/-- Environment for claim C5: one port per leaf-spine pair. -/
def envC5 : Env :=
  { count_output := none, ipv6Window := [],
    leafPorts := fun s => if s = "S1" then ["a"] else ["b"],
    remotePort := fun lp => "r" ++ lp,
    ifaceChanged := fun _ _ => true }

/-- A trace fragment that contains no auto-trunk toggle at all. -/
def noToggle (l : List Event) : Prop :=
  ∀ sw b, Event.autoTrunk sw b ∉ l

/-- Scenario shared by the C4 and C10 witnesses: dual-stack family, the
skip count defined as 0, and an already empty IPv6 window, so the first
link hits the exhaustion stop. -/
def paramsW4 : Params :=
  { spine_list := ["s"], leaf_list := ["l"],
    addr_type := AddrType.ipv4_ipv6, start_ip := alignedBase,
    subnet_ipv4 := 31, subnet_ipv6 := 112, current_switch := "l" }

/-- Environment for the C4 and C10 witnesses. -/
def envW4 : Env :=
  { count_output := some 0, ipv6Window := [],
    leafPorts := fun _ => ["p"], remotePort := fun _ => "q",
    ifaceChanged := fun _ _ => true }

/-- Scenario for the C6 witness: dual-stack family with count_output
undefined in the star-imported namespace, as the spec states. -/
def paramsW6 : Params :=
  { spine_list := ["sp"], leaf_list := ["lf"],
    addr_type := AddrType.ipv4_ipv6, start_ip := alignedBase,
    subnet_ipv4 := 31, subnet_ipv6 := 112, current_switch := "lf" }

/-- Environment for the C6 witness. -/
def envW6 : Env :=
  { count_output := none, ipv6Window := [[1, 2, 3]],
    leafPorts := fun _ => ["p"], remotePort := fun _ => "q",
    ifaceChanged := fun _ _ => true }

theorem pyGet_ok (l : List Nat) (i : Nat) (h : i < l.length) :
    pyGet l i = Except.ok (l.getD i 0) := by
  induction l generalizing i with
  | nil => simp at h
  | cons a t ih =>
    cases i with
    | zero => rfl
    | succ j =>
      simp only [List.length_cons] at h
      exact ih j (Nat.lt_of_succ_lt_succ h)

theorem processLink_ipv4 (p : Params) (env : Env) (spine : String)
    (ips : List Nat) (lport : String) (st : PlanState)
    (h4 : p.addr_type = AddrType.ipv4) (hlen : 2 ≤ ips.length) :
    processLink p env spine ips lport st =
      Step.cont
        { count := st.count + 1
          window := st.window
          events := st.events ++
            [Event.deleteTrunk spine (env.remotePort lport) p.current_switch,
             Event.createInterface spine (some (ips.getD 0 0)) none
               (env.remotePort lport),
             Event.deleteTrunk p.current_switch lport spine,
             Event.createInterface p.current_switch (some (ips.getD 1 0)) none
               lport]
          changedFlags := st.changedFlags ++
            [env.ifaceChanged spine (env.remotePort lport),
             env.ifaceChanged p.current_switch lport] } := by
  have h0 : pyGet ips 0 = Except.ok (ips.getD 0 0) := pyGet_ok _ _ (by omega)
  have h1 : pyGet ips 1 = Except.ok (ips.getD 1 0) := pyGet_ok _ _ (by omega)
  simp only [processLink, linkAssign, firstV6, firstV4, secondV6, secondV4,
    h4, AddrType.hasV6, AddrType.hasV4, h0, h1, Except.map, if_true,
    Bool.false_eq_true, if_false, List.append_assoc, List.cons_append,
    List.nil_append]

theorem processPorts_ipv4_eq (p : Params) (env : Env) (spine : String)
    (ips : List Nat) (h4 : p.addr_type = AddrType.ipv4)
    (hlen : 2 ≤ ips.length) :
    ∀ (ports : List String) (st : PlanState),
      processPorts p env spine ips ports st =
        Step.cont
          { count := st.count + ports.length
            window := st.window
            events := st.events ++ ports.flatMap (fun lp =>
              [Event.deleteTrunk spine (env.remotePort lp) p.current_switch,
               Event.createInterface spine (some (ips.getD 0 0)) none
                 (env.remotePort lp),
               Event.deleteTrunk p.current_switch lp spine,
               Event.createInterface p.current_switch (some (ips.getD 1 0))
                 none lp])
            changedFlags := st.changedFlags ++ ports.flatMap (fun lp =>
              [env.ifaceChanged spine (env.remotePort lp),
               env.ifaceChanged p.current_switch lp]) }
  | [], st => by
    simp only [processPorts, List.length_nil, Nat.add_zero, List.flatMap_nil,
      List.append_nil]
  | lport :: rest, st => by
    rw [processPorts, processLink_ipv4 p env spine ips lport st h4 hlen]
    dsimp only
    rw [processPorts_ipv4_eq p env spine ips h4 hlen rest]
    simp only [List.length_cons, List.flatMap_cons, List.append_assoc,
      List.cons_append, List.nil_append]
    have hc : st.count + 1 + rest.length = st.count + (rest.length + 1) := by
      omega
    rw [hc]

/-- Claim C1: the claim says each processed link consumes the IPv4 subnet
at the current base offset, advancing per link, so two ports connected to
the same spine get distinct subnets.  The code computes the host list
once per spine, outside the port loop, so on the failing input (one leaf,
one spine, two ports) both links receive the hosts of the offset-0 subnet
172.168.1.0/31, while the subnet at offset 1 is never assigned even
though the offset variable has advanced past it. -/
theorem c1_same_spine_duplicate_subnets :
    ifaceIPv4s (eventsOf (auto_configure_link_ips paramsC1 envC1)) "s1" =
      [some alignedBase, some alignedBase] ∧
    ifaceIPv4s (eventsOf (auto_configure_link_ips paramsC1 envC1)) "l1" =
      [some (alignedBase + 1), some (alignedBase + 1)] ∧
    finding_initial_ip paramsC1.start_ip paramsC1.subnet_ipv4 1 =
      Except.ok [alignedBase + 2, alignedBase + 3] ∧
    (alignedBase + 2) ∉
      assigned_ipv4s (eventsOf (auto_configure_link_ips paramsC1 envC1)) := by
  decide

/-- Claim C2 (counterexample): on the end-to-end scenario exactly as the
claim states it, with base 172.168.1.1 and prefix 31, strict network
parsing raises ValueError at the first spine, so no interface is ever
configured, the leaf side does not get the first host, and no successful
changed result is produced; and on the same scenario with the canonical
base 172.168.1.0/31 the leaf side gets the second host while the spine
side gets the first, the opposite of the claimed assignment. -/
theorem c2_counterexample :
    auto_configure_link_ips paramsC2 envC2 =
      RunResult.err PyError.valueError
        [Event.autoTrunk "leaf1" false, Event.autoTrunk "spine1" false] ∧
    ifaceIPv4s (eventsOf (auto_configure_link_ips paramsC2 envC2)) "leaf1" =
      [] ∧
    run_module paramsC2 envC2 =
      Except.error (PyError.valueError,
        [Event.autoTrunk "leaf1" false, Event.autoTrunk "spine1" false]) ∧
    ifaceIPv4s (eventsOf (auto_configure_link_ips paramsC2aligned envC2))
      "leaf1" = [some (alignedBase + 1)] ∧
    ifaceIPv4s (eventsOf (auto_configure_link_ips paramsC2aligned envC2))
      "spine1" = [some alignedBase] := by
  decide

/-- Claim C2 (amended): for every link, the first usable host of the
allocated subnet is assigned to the spine-side interface and the second
to the leaf-side interface; on the end-to-end scenario the literal base
172.168.1.1/31 fails strict parsing with ValueError, and with the
canonical base 172.168.1.0/31 the run assigns the first host 172.168.1.0
to the spine side and the second host 172.168.1.1 to the leaf side and
exits with changed true. -/
theorem c2_first_host_to_spine_side :
    (∀ (p : Params) (env : Env) (spine : String) (ips : List Nat)
       (ports : List String) (st : PlanState),
       p.addr_type = AddrType.ipv4 → 2 ≤ ips.length →
       processPorts p env spine ips ports st =
         Step.cont
           { count := st.count + ports.length
             window := st.window
             events := st.events ++ ports.flatMap (fun lp =>
               [Event.deleteTrunk spine (env.remotePort lp) p.current_switch,
                Event.createInterface spine (some (ips.getD 0 0)) none
                  (env.remotePort lp),
                Event.deleteTrunk p.current_switch lp spine,
                Event.createInterface p.current_switch (some (ips.getD 1 0))
                  none lp])
             changedFlags := st.changedFlags ++ ports.flatMap (fun lp =>
               [env.ifaceChanged spine (env.remotePort lp),
                env.ifaceChanged p.current_switch lp]) }) ∧
    run_module paramsC2 envC2 =
      Except.error (PyError.valueError,
        [Event.autoTrunk "leaf1" false, Event.autoTrunk "spine1" false]) ∧
    run_module paramsC2aligned envC2 =
      Except.ok
        ({ unreachable := false, failed := false, exception := "",
           summaryOutput := "", msg := "L3 ZTP configuration succeeded",
           changed := true },
         [Event.autoTrunk "leaf1" false, Event.autoTrunk "spine1" false,
          Event.deleteTrunk "spine1" "5" "leaf1",
          Event.createInterface "spine1" (some alignedBase) none "5",
          Event.deleteTrunk "leaf1" "1" "spine1",
          Event.createInterface "leaf1" (some (alignedBase + 1)) none "1",
          Event.autoTrunk "leaf1" true, Event.autoTrunk "spine1" true]) := by
  refine ⟨?_, by decide, by decide⟩
  intro p env spine ips ports st h4 hlen
  exact processPorts_ipv4_eq p env spine ips h4 hlen ports st

/-- Claim C2 (witness): the general conjunct applied at a concrete input,
one port and the host pair of 172.168.1.0/31. -/
theorem c2_witness :
    processPorts paramsC2aligned envC2 "spine1" [alignedBase, alignedBase + 1]
      ["1"] ⟨0, [], [], []⟩ =
      Step.cont
        ⟨1, [],
         [Event.deleteTrunk "spine1" "5" "leaf1",
          Event.createInterface "spine1" (some alignedBase) none "5",
          Event.deleteTrunk "leaf1" "1" "spine1",
          Event.createInterface "leaf1" (some (alignedBase + 1)) none "1"],
         [true, true]⟩ :=
  c2_first_host_to_spine_side.1 paramsC2aligned envC2 "spine1"
    [alignedBase, alignedBase + 1] ["1"] ⟨0, [], [], []⟩ rfl (by decide)

theorem ip_network_strict_ok (addr pl : Nat) (h1 : pl ≤ 32)
    (h2 : addr < 2 ^ 32) (h3 : addr % 2 ^ (32 - pl) = 0) :
    ip_network_strict addr pl = Except.ok ⟨addr, pl⟩ := by
  have hcond : pl ≤ 32 ∧ addr < 2 ^ 32 ∧ addr % 2 ^ (32 - pl) = 0 :=
    ⟨h1, h2, h3⟩
  simp only [ip_network_strict, if_pos hcond]

/-- Claim C3: the n-th subnet of the stream has network address equal to
the base address plus n strides, where the stride is the size
broadcast + 1 - network of the base, with the same prefix length; and
two subnets of the stream at distinct indices cover disjoint address
ranges. -/
theorem c3_subnet_at_stride_disjoint (addr pl n : Nat)
    (hpl : pl ≤ 32) (haddr : addr < 2 ^ 32)
    (hcanon : addr % 2 ^ (32 - pl) = 0)
    (hspace : addr + n * 2 ^ (32 - pl) < 2 ^ 32) :
    subnet_at ⟨addr, pl⟩ n =
      Except.ok ⟨addr + n * Net.size ⟨addr, pl⟩, pl⟩ ∧
    Net.size ⟨addr, pl⟩ = 2 ^ (32 - pl) ∧
    ∀ m : Nat, m ≠ n → ∀ x : Nat,
      ¬(inRange ⟨addr + n * Net.size ⟨addr, pl⟩, pl⟩ x ∧
        inRange ⟨addr + m * Net.size ⟨addr, pl⟩, pl⟩ x) := by
  have hs1 : 1 ≤ 2 ^ (32 - pl) := Nat.one_le_two_pow
  have hsize : Net.size ⟨addr, pl⟩ = 2 ^ (32 - pl) := by
    simp only [Net.size, Net.broadcastAddress]
    omega
  refine ⟨?_, hsize, ?_⟩
  · rw [hsize]
    by_cases h0 : n = 0
    · subst h0
      simp only [subnet_at, if_pos rfl, Nat.zero_mul, Nat.add_zero]
      exact ip_network_strict_ok addr pl hpl haddr hcanon
    · simp only [subnet_at, if_neg h0, betterAdd, hsize]
      exact ip_network_strict_ok (addr + n * 2 ^ (32 - pl)) pl hpl hspace
        (by rw [Nat.add_mul_mod_self_right]; exact hcanon)
  · intro m hmn x hx
    rw [hsize] at hx
    simp only [inRange, Net.broadcastAddress] at hx
    rcases Nat.lt_or_ge m n with hlt | hge
    · have hstep : m * 2 ^ (32 - pl) + 2 ^ (32 - pl) ≤ n * 2 ^ (32 - pl) := by
        have := Nat.mul_le_mul_right (2 ^ (32 - pl)) (Nat.succ_le_of_lt hlt)
        simpa [Nat.succ_mul] using this
      omega
    · have hlt2 : n < m := Nat.lt_of_le_of_ne hge (fun hh => hmn hh.symm)
      have hstep : n * 2 ^ (32 - pl) + 2 ^ (32 - pl) ≤ m * 2 ^ (32 - pl) := by
        have := Nat.mul_le_mul_right (2 ^ (32 - pl)) (Nat.succ_le_of_lt hlt2)
        simpa [Nat.succ_mul] using this
      omega

/-- Claim C3 (witness): the stride theorem applied at the canonical /31
base and index 1, whose subnet starts two addresses past the base. -/
theorem c3_witness :
    subnet_at ⟨alignedBase, 31⟩ 1 = Except.ok ⟨alignedBase + 2, 31⟩ ∧
    ¬(inRange ⟨alignedBase + 1 * Net.size ⟨alignedBase, 31⟩, 31⟩ alignedBase ∧
      inRange ⟨alignedBase + 0 * Net.size ⟨alignedBase, 31⟩, 31⟩ alignedBase) := by
  have h := c3_subnet_at_stride_disjoint alignedBase 31 1 (by decide)
    (by decide) (by decide) (by decide)
  refine ⟨?_, h.2.2 0 (by decide) alignedBase⟩
  rw [h.1]
  decide

/-- Claim C7: for a /31 base, the usable-host list the planner consumes
at any offset has exactly two elements, the network address and the
broadcast address of the subnet at that offset, in that order. -/
theorem c7_slash31_hosts (start count : Nat) (hc : start % 2 = 0)
    (hspace : start + count * 2 + 2 ≤ 2 ^ 32) :
    finding_initial_ip start 31 (count : Int) =
      Except.ok [start + count * 2, start + count * 2 + 1] ∧
    subnet_at ⟨start, 31⟩ count = Except.ok ⟨start + count * 2, 31⟩ ∧
    Net.broadcastAddress ⟨start + count * 2, 31⟩ = start + count * 2 + 1 := by
  have hparse : ip_network_strict start 31 = Except.ok ⟨start, 31⟩ := by
    refine ip_network_strict_ok start 31 (by omega) (by omega) ?_
    simpa using hc
  have hsize : Net.size ⟨start, 31⟩ = 2 := by
    simp only [Net.size, Net.broadcastAddress]
    omega
  have hbig : Net.broadcastAddress ⟨start + count * 2, 31⟩ =
      start + count * 2 + 1 := by
    simp only [Net.broadcastAddress]
    omega
  have hhosts : ∀ a : Nat, Net.hosts ⟨a, 31⟩ = [a, a + 1] := by
    intro a
    simp [Net.hosts]
  have hadd : betterAdd ⟨start, 31⟩ (count * 2) =
      Except.ok ⟨start + count * 2, 31⟩ := by
    refine ip_network_strict_ok (start + count * 2) 31 (by omega) (by omega) ?_
    show (start + count * 2) % 2 ^ (32 - 31) = 0
    simp only [show (32 : Nat) - 31 = 1 from rfl, pow_one]
    omega
  refine ⟨?_, ?_, hbig⟩
  · cases count with
    | zero =>
      simp only [finding_initial_ip, Nat.cast_zero, if_pos rfl, hparse,
        Except.map, hhosts, Nat.zero_mul, Nat.add_zero, if_true]
    | succ k =>
      have hne : ((k + 1 : Nat) : Int) ≠ 0 := by
        exact_mod_cast Nat.succ_ne_zero k
      have hneg : ¬(((k + 1 : Nat) : Int) < 0) := by
        have hge := Int.natCast_nonneg (k + 1)
        omega
      simp only [finding_initial_ip, if_neg hne, hparse, if_neg hneg,
        Int.toNat_natCast, hsize, hadd, Except.map, hhosts]
  · simp only [subnet_at]
    by_cases h0 : count = 0
    · subst h0
      simp only [if_pos rfl, hparse, Nat.zero_mul, Nat.add_zero, if_true]
    · rw [if_neg h0, hsize, hadd]

/-- Claim C7 (witness): the /31 host theorem applied at the canonical
base and offset 3. -/
theorem c7_witness :
    finding_initial_ip alignedBase 31 (3 : Int) =
      Except.ok [alignedBase + 6, alignedBase + 7] := by
  have h := c7_slash31_hosts alignedBase 3 (by decide) (by decide)
  have h1 := h.1
  norm_num at h1
  exact h1

/-- Claim C8 (counterexample): at index -1 the sequencer does fail, but
with the unbound-local error arising from the never-entered loop, not
with the InvalidOffset error the claim names. -/
theorem c8_counterexample :
    finding_initial_ip alignedBase 31 (-1) =
      Except.error PyError.unboundLocal ∧
    finding_initial_ip alignedBase 31 (-1) ≠
      Except.error PyError.invalidOffset := by
  decide

/-- Claim C8 (amended): for every negative index and every base that
parses strictly, requesting the subnet fails rather than silently
returning a value, but the failure is the UnboundLocalError raised at
the return of the never-entered generator loop, not an InvalidOffset
error. -/
theorem c8_negative_count_unbound (start pl : Nat) (n : Int) (hn : n < 0)
    (hpl : pl ≤ 32) (haddr : start < 2 ^ 32)
    (hcanon : start % 2 ^ (32 - pl) = 0) :
    finding_initial_ip start pl n = Except.error PyError.unboundLocal := by
  have hne : n ≠ 0 := by omega
  simp only [finding_initial_ip, if_neg hne,
    ip_network_strict_ok start pl hpl haddr hcanon, if_pos hn]

/-- Claim C8 (witness): the amended theorem applied at the canonical /31
base and index -7. -/
theorem c8_witness :
    finding_initial_ip alignedBase 31 (-7) =
      Except.error PyError.unboundLocal :=
  c8_negative_count_unbound alignedBase 31 (-7) (by decide) (by decide)
    (by decide) (by decide)

/-- Claim C9: whenever the start address is not the canonical masked
network address for the supplied prefix (or the network is otherwise
invalid), finding_initial_ip fails with ValueError from strict parsing
for every index, before producing any subnet or host list; the module
defaults 172.168.1.1 with prefix 31 are such an input. -/
theorem c9_noncanonical_valueError (start pl : Nat) (count : Int)
    (hmis : ¬(pl ≤ 32 ∧ start < 2 ^ 32 ∧ start % 2 ^ (32 - pl) = 0)) :
    finding_initial_ip start pl count = Except.error PyError.valueError := by
  by_cases h0 : count = 0
  · simp only [finding_initial_ip, if_pos h0, ip_network_strict,
      if_neg hmis, Except.map]
  · simp only [finding_initial_ip, if_neg h0, ip_network_strict,
      if_neg hmis]

/-- Claim C9 (witness): the strict-parse theorem applied at the module
defaults, base 172.168.1.1 with prefix 31, at index 0 and index 5. -/
theorem c9_witness :
    finding_initial_ip defaultStartIp 31 0 =
      Except.error PyError.valueError ∧
    finding_initial_ip defaultStartIp 31 5 =
      Except.error PyError.valueError :=
  ⟨c9_noncanonical_valueError defaultStartIp 31 0 (by decide),
   c9_noncanonical_valueError defaultStartIp 31 5 (by decide)⟩

/-- Claim C5: the starting offset into the subnet stream is the index of
the current leaf in the leaf list times the number of spines; with leaf
list [L1, L2], spine list [S1, S2] and one port per leaf-spine pair, L1
starts at offset 0 and L2 at offset 2, and the IPv4 addresses the two
runs assign are disjoint. -/
theorem c5_leaf_offsets_disjoint :
    (∀ q : Params, initial_count q =
      list_index q.current_switch q.leaf_list * q.spine_list.length) ∧
    initial_count paramsC5L1 = 0 ∧
    initial_count paramsC5L2 = 2 ∧
    assigned_ipv4s (eventsOf (auto_configure_link_ips paramsC5L1 envC5)) =
      [alignedBase, alignedBase + 1, alignedBase + 2, alignedBase + 3] ∧
    assigned_ipv4s (eventsOf (auto_configure_link_ips paramsC5L2 envC5)) =
      [alignedBase + 4, alignedBase + 5, alignedBase + 6, alignedBase + 7] ∧
    ∀ x ∈ assigned_ipv4s (eventsOf (auto_configure_link_ips paramsC5L1 envC5)),
      x ∉ assigned_ipv4s (eventsOf (auto_configure_link_ips paramsC5L2 envC5)) := by
  exact ⟨fun q => rfl, by decide, by decide, by decide, by decide, by decide⟩

/-- Claim C6: whenever the address family includes IPv6 and the current
switch is a leaf, the window-skip step reads the undefined name
count_output, so the run stops with a NameError whose trace holds only
the auto-trunk disable events: no trunk is deleted, no interface is
configured, no link is allocated. -/
theorem c6_count_output_nameError (p : Params) (env : Env)
    (hv6 : p.addr_type.hasV6 = true)
    (hleaf : p.leaf_list.contains p.current_switch = true)
    (hco : env.count_output = none) :
    auto_configure_link_ips p env =
      RunResult.err PyError.nameError (disableEvents p) ∧
    ∀ e ∈ eventsOf (auto_configure_link_ips p env),
      ∃ sw, e = Event.autoTrunk sw false := by
  have hmain : auto_configure_link_ips p env =
      RunResult.err PyError.nameError (disableEvents p) := by
    simp only [auto_configure_link_ips, setupWindow, hleaf, if_true, hv6, hco]
  refine ⟨hmain, ?_⟩
  rw [hmain]
  intro e he
  simp only [eventsOf, disableEvents, List.mem_cons, List.mem_map] at he
  rcases he with h | ⟨s, _, h⟩
  · exact ⟨p.current_switch, h⟩
  · exact ⟨s, h.symm⟩

/-- Claim C6 (witness): the NameError theorem applied at the concrete
dual-stack scenario. -/
theorem c6_witness :
    auto_configure_link_ips paramsW6 envW6 =
      RunResult.err PyError.nameError (disableEvents paramsW6) :=
  (c6_count_output_nameError paramsW6 envW6 rfl (by decide) rfl).1

theorem processLink_dual (p : Params) (env : Env) (spine : String)
    (ips : List Nat) (lport : String) (st : PlanState)
    (slot : List Nat) (wrest : List (List Nat))
    (hdual : p.addr_type = AddrType.ipv4_ipv6) (hlen : 2 ≤ ips.length)
    (hslot : 3 ≤ slot.length) (hw : st.window = slot :: wrest) :
    processLink p env spine ips lport st =
      Step.cont
        { count := st.count + 1
          window := wrest
          events := st.events ++
            [Event.deleteTrunk spine (env.remotePort lport) p.current_switch,
             Event.createInterface spine (some (ips.getD 0 0))
               (some (slot.getD (if p.subnet_ipv6 = 127 then 0 else 1) 0))
               (env.remotePort lport),
             Event.deleteTrunk p.current_switch lport spine,
             Event.createInterface p.current_switch (some (ips.getD 1 0))
               (some (slot.getD (if p.subnet_ipv6 = 127 then 1 else 2) 0))
               lport]
          changedFlags := st.changedFlags ++
            [env.ifaceChanged spine (env.remotePort lport),
             env.ifaceChanged p.current_switch lport] } := by
  have hi1 : (if p.subnet_ipv6 = 127 then 0 else 1) < slot.length := by
    split <;> omega
  have hi2 : (if p.subnet_ipv6 = 127 then 1 else 2) < slot.length := by
    split <;> omega
  have h0 : pyGet ips 0 = Except.ok (ips.getD 0 0) := pyGet_ok _ _ (by omega)
  have h1 : pyGet ips 1 = Except.ok (ips.getD 1 0) := pyGet_ok _ _ (by omega)
  have h6a := pyGet_ok slot _ hi1
  have h6b := pyGet_ok slot _ hi2
  simp only [processLink, hdual, AddrType.hasV6, eq_self_iff_true, if_true,
    hw, linkAssign, firstV6, secondV6, firstV4, secondV4, AddrType.hasV4,
    h0, h1, h6a, h6b, Except.map, List.append_assoc, List.cons_append,
    List.nil_append]

theorem processPorts_exhaust (p : Params) (env : Env) (spine : String)
    (ips : List Nat) (hdual : p.addr_type = AddrType.ipv4_ipv6)
    (hlen : 2 ≤ ips.length) :
    ∀ (ports : List String) (st : PlanState),
      (∀ slot ∈ st.window, 3 ≤ slot.length) →
      st.window.length < ports.length →
      ∃ evts, processPorts p env spine ips ports st =
        Step.exited ipv6ExhaustedExit evts
  | [], st => by
    intro _ hlt
    simp at hlt
  | lport :: rest, st => by
    intro hwf hlt
    cases hw : st.window with
    | nil =>
      refine ⟨st.events, ?_⟩
      rw [processPorts]
      simp only [processLink, hdual, AddrType.hasV6, eq_self_iff_true,
        if_true, hw]
    | cons slot wrest =>
      have hslot : 3 ≤ slot.length :=
        hwf slot (by rw [hw]; exact List.mem_cons_self _ _)
      rw [processPorts,
        processLink_dual p env spine ips lport st slot wrest hdual hlen
          hslot hw]
      dsimp only
      refine processPorts_exhaust p env spine ips hdual hlen rest _ ?_ ?_
      · intro s hs
        exact hwf s (by rw [hw]; exact List.mem_cons_of_mem _ hs)
      · rw [hw] at hlt
        simp only [List.length_cons] at hlt ⊢
        omega

/-- Claim C4: when the address family includes IPv6 and the window runs
out of slots while links remain, the whole run stops through exit_json
with the structured failure: failed true, changed false, and the fixed
diagnostic message about the exhausted ipv6 range.  The hypotheses pin
the reachable route to the handler: a dual-stack run (a pure IPv6 run
dies earlier on the unbound subnet_ipv4 local), a defined count_output,
a skip that fits the window, a first spine whose port list is longer
than what remains of the window, and a valid IPv4 base. -/
theorem c4_ipv6_exhaustion_fatal (p : Params) (env : Env) (k : Nat)
    (spine : String) (rest : List String) (ips : List Nat)
    (hdual : p.addr_type = AddrType.ipv4_ipv6)
    (hleaf : p.leaf_list.contains p.current_switch = true)
    (hco : env.count_output = some k)
    (hk : k ≤ env.ipv6Window.length)
    (hspines : p.spine_list = spine :: rest)
    (hsucc : (env.leafPorts spine).contains "Success" = false)
    (hips : finding_initial_ip p.start_ip p.subnet_ipv4
      ((initial_count p : Nat) : Int) = Except.ok ips)
    (hlen : 2 ≤ ips.length)
    (hwf : ∀ slot ∈ env.ipv6Window, 3 ≤ slot.length)
    (hexh : env.ipv6Window.length - k < (env.leafPorts spine).length) :
    (∃ evts, auto_configure_link_ips p env =
      RunResult.exited ipv6ExhaustedExit evts) ∧
    ipv6ExhaustedExit.failed = true ∧
    ipv6ExhaustedExit.changed = false ∧
    ipv6ExhaustedExit.exception = "Error: " ++ "ipv6 range exhausted" := by
  refine ⟨?_, rfl, rfl, rfl⟩
  have hstep := processPorts_exhaust p env spine ips hdual hlen
    (env.leafPorts spine)
    ⟨initial_count p, env.ipv6Window.drop k, disableEvents p, []⟩
    (fun s hs => hwf s (List.drop_subset k env.ipv6Window hs))
    (by simpa [List.length_drop] using hexh)
  rcases hstep with ⟨evts, hpp⟩
  refine ⟨evts, ?_⟩
  simp only [auto_configure_link_ips, setupWindow, hleaf, if_true, hdual,
    AddrType.hasV6, eq_self_iff_true, hco, hk, hspines, processSpines,
    AddrType.hasV4, hips, hsucc, Bool.false_eq_true, if_false, hpp]

/-- Claim C4 (witness): the exhaustion theorem applied at a concrete
dual-stack run whose IPv6 window is already empty at the first link. -/
theorem c4_witness :
    ∃ evts, auto_configure_link_ips paramsW4 envW4 =
      RunResult.exited ipv6ExhaustedExit evts :=
  (c4_ipv6_exhaustion_fatal paramsW4 envW4 0 "s" []
    [alignedBase, alignedBase + 1] rfl (by decide) rfl (by decide) rfl
    (by decide) (by decide) (by decide) (by decide) (by decide)).1

theorem noToggle_nil : noToggle [] := by
  intro sw b h
  exact absurd h (List.not_mem_nil _)

theorem noToggle_append {a b : List Event} (ha : noToggle a)
    (hb : noToggle b) : noToggle (a ++ b) := by
  intro sw fl h
  rcases List.mem_append.mp h with h | h
  · exact ha sw fl h
  · exact hb sw fl h

theorem linkAssign_extend (p : Params) (env : Env) (spine : String)
    (ips : List Nat) (lport : String) (st : PlanState)
    (oslot : Option (List Nat)) (wrest : List (List Nat)) :
    ∃ extra, noToggle extra ∧
      stepEvents (linkAssign p env spine ips lport st oslot wrest) =
        st.events ++ extra := by
  cases h6a : firstV6 p oslot with
  | error e =>
    refine ⟨[], noToggle_nil, ?_⟩
    simp [linkAssign, h6a, stepEvents]
  | ok v6a =>
    cases h4a : firstV4 p ips with
    | error e =>
      refine ⟨[], noToggle_nil, ?_⟩
      simp [linkAssign, h6a, h4a, stepEvents]
    | ok v4a =>
      cases h6b : secondV6 p oslot with
      | error e =>
        refine ⟨[Event.deleteTrunk spine (env.remotePort lport)
            p.current_switch,
          Event.createInterface spine v4a v6a (env.remotePort lport)],
          ?_, ?_⟩
        · intro sw b hh
          simp at hh
        · simp [linkAssign, h6a, h4a, h6b, stepEvents]
      | ok v6b =>
        cases h4b : secondV4 p ips with
        | error e =>
          refine ⟨[Event.deleteTrunk spine (env.remotePort lport)
              p.current_switch,
            Event.createInterface spine v4a v6a (env.remotePort lport)],
            ?_, ?_⟩
          · intro sw b hh
            simp at hh
          · simp [linkAssign, h6a, h4a, h6b, h4b, stepEvents]
        | ok v4b =>
          refine ⟨[Event.deleteTrunk spine (env.remotePort lport)
              p.current_switch,
            Event.createInterface spine v4a v6a (env.remotePort lport),
            Event.deleteTrunk p.current_switch lport spine,
            Event.createInterface p.current_switch v4b v6b lport],
            ?_, ?_⟩
          · intro sw b hh
            simp at hh
          · simp [linkAssign, h6a, h4a, h6b, h4b, stepEvents]

theorem processLink_extend (p : Params) (env : Env) (spine : String)
    (ips : List Nat) (lport : String) (st : PlanState) :
    ∃ extra, noToggle extra ∧
      stepEvents (processLink p env spine ips lport st) =
        st.events ++ extra := by
  unfold processLink
  by_cases h : p.addr_type.hasV6 = true
  · rw [if_pos h]
    cases hw : st.window with
    | nil =>
      refine ⟨[], noToggle_nil, ?_⟩
      simp [stepEvents]
    | cons slot wrest => exact linkAssign_extend p env spine ips lport st _ _
  · rw [if_neg h]
    exact linkAssign_extend p env spine ips lport st _ _

theorem processPorts_extend (p : Params) (env : Env) (spine : String)
    (ips : List Nat) :
    ∀ (ports : List String) (st : PlanState),
      ∃ extra, noToggle extra ∧
        stepEvents (processPorts p env spine ips ports st) =
          st.events ++ extra
  | [], st => ⟨[], noToggle_nil, by simp [processPorts, stepEvents]⟩
  | lport :: rest, st => by
    rcases processLink_extend p env spine ips lport st with ⟨e1, hn1, he1⟩
    rw [processPorts]
    cases hpl : processLink p env spine ips lport st with
    | cont st2 =>
      rcases processPorts_extend p env spine ips rest st2 with ⟨e2, hn2, he2⟩
      refine ⟨e1 ++ e2, noToggle_append hn1 hn2, ?_⟩
      show stepEvents (processPorts p env spine ips rest st2) =
        st.events ++ (e1 ++ e2)
      rw [he2]
      have hst2 : st2.events = st.events ++ e1 := by
        rw [hpl] at he1
        exact he1
      rw [hst2, List.append_assoc]
    | exited e evts =>
      refine ⟨e1, hn1, ?_⟩
      rw [hpl] at he1
      exact he1
    | err e evts =>
      refine ⟨e1, hn1, ?_⟩
      rw [hpl] at he1
      exact he1

theorem processSpines_extend (p : Params) (env : Env) :
    ∀ (spines : List String) (st : PlanState),
      ∃ extra, noToggle extra ∧
        stepEvents (processSpines p env spines st) = st.events ++ extra
  | [], st => ⟨[], noToggle_nil, by simp [processSpines, stepEvents]⟩
  | spine :: rest, st => by
    rw [processSpines]
    cases hips : (if p.addr_type.hasV4 then
        finding_initial_ip p.start_ip p.subnet_ipv4 (st.count : Int)
      else Except.error PyError.unboundLocal) with
    | error e =>
      refine ⟨[], noToggle_nil, ?_⟩
      simp [stepEvents]
    | ok ips =>
      dsimp only
      by_cases hsu : (env.leafPorts spine).contains "Success" = true
      · rw [if_pos hsu]
        exact processSpines_extend p env rest st
      · rw [if_neg hsu]
        rcases processPorts_extend p env spine ips (env.leafPorts spine) st
          with ⟨e1, hn1, he1⟩
        cases hpp : processPorts p env spine ips (env.leafPorts spine) st with
        | cont st2 =>
          rcases processSpines_extend p env rest st2 with ⟨e2, hn2, he2⟩
          refine ⟨e1 ++ e2, noToggle_append hn1 hn2, ?_⟩
          show stepEvents (processSpines p env rest st2) =
            st.events ++ (e1 ++ e2)
          rw [he2]
          have hst2 : st2.events = st.events ++ e1 := by
            rw [hpp] at he1
            exact he1
          rw [hst2, List.append_assoc]
        | exited e evts =>
          refine ⟨e1, hn1, ?_⟩
          rw [hpp] at he1
          exact he1
        | err e evts =>
          refine ⟨e1, hn1, ?_⟩
          rw [hpp] at he1
          exact he1

/-- Claim C10: whenever a run ends through the fatal exhaustion exit,
the trace contains no auto-trunk re-enable event, while it does contain
the auto-trunk disable for the current leaf and for every spine: the
teardown step never runs and auto-trunk stays disabled everywhere. -/
theorem c10_exhaustion_skips_reenable (p : Params) (env : Env)
    (e : ExitJson) (evts : List Event)
    (h : auto_configure_link_ips p env = RunResult.exited e evts) :
    (∀ sw, Event.autoTrunk sw true ∉ evts) ∧
    Event.autoTrunk p.current_switch false ∈ evts ∧
    ∀ sp ∈ p.spine_list, Event.autoTrunk sp false ∈ evts := by
  unfold auto_configure_link_ips at h
  by_cases hm : p.leaf_list.contains p.current_switch = true
  case neg =>
    rw [if_neg hm] at h
    exact absurd h (by simp)
  rw [if_pos hm] at h
  have hmain : ∃ extra, noToggle extra ∧ evts = disableEvents p ++ extra := by
    cases hsetup : setupWindow p env with
    | error e' =>
      rw [hsetup] at h
      exact absurd h (by simp)
    | ok window =>
      rw [hsetup] at h
      dsimp only at h
      rcases processSpines_extend p env p.spine_list
        ⟨initial_count p, window, disableEvents p, []⟩ with ⟨extra, hnt, hev⟩
      cases hps : processSpines p env p.spine_list
          ⟨initial_count p, window, disableEvents p, []⟩ with
      | cont st2 =>
        rw [hps] at h
        exact absurd h (by simp)
      | err e2 evts2 =>
        rw [hps] at h
        exact absurd h (by simp)
      | exited e2 evts2 =>
        rw [hps] at h
        rw [hps] at hev
        rcases h with ⟨⟩
        exact ⟨extra, hnt, hev⟩
  rcases hmain with ⟨extra, hnt, hev⟩
  subst hev
  refine ⟨?_, ?_, ?_⟩
  · intro sw hmem
    rcases List.mem_append.mp hmem with hmem | hmem
    · simp [disableEvents] at hmem
    · exact hnt sw true hmem
  · exact List.mem_append_left _ (List.mem_cons_self _ _)
  · intro sp hsp
    refine List.mem_append_left _ (List.mem_cons_of_mem _ ?_)
    exact List.mem_map_of_mem _ hsp

/-- Claim C10 (witness): the teardown-skip theorem applied at the
concrete exhausted run, whose trace holds exactly the two disables. -/
theorem c10_witness :
    (∀ sw, Event.autoTrunk sw true ∉
      [Event.autoTrunk "l" false, Event.autoTrunk "s" false]) ∧
    Event.autoTrunk "l" false ∈
      [Event.autoTrunk "l" false, Event.autoTrunk "s" false] ∧
    ∀ sp ∈ paramsW4.spine_list, Event.autoTrunk sp false ∈
      [Event.autoTrunk "l" false, Event.autoTrunk "s" false] :=
  c10_exhaustion_skips_reenable paramsW4 envW4 ipv6ExhaustedExit
    [Event.autoTrunk "l" false, Event.autoTrunk "s" false] (by decide)

end IpCalc
